import Mathlib

/-
Verification of the document-chat-app user-account core.

Shallow embedding of the Python sources:
  src/src/utils/security.py        (PasswordManager, JWTHandler)
  src/src/repositories/user_repository.py   (UserRepository)
  src/src/services/user_service.py (UserManagementService)
  src/src/routers/user_router.py   (register endpoint response)
  src/src/models/orm.py            (User table: id, username, email, password_hash)
  src/src/models/requests.py       (LoginRequest, RegisterRequest)
  src/src/exceptions/user_exceptions.py (UserNotFoundException)

Python exceptions are modelled by the inductive `PyExc`; fallible code
returns `Except PyExc _`.  Attribute access on pydantic models and ORM rows
is modelled by total `getAttr` functions over the fields each class
actually declares, so that the source's attribute-name slips (`password`
versus `password_hash` / `hashed_password`) surface as `attributeError`
values exactly where CPython would raise AttributeError.
-/

namespace DocChat

/-- A JSON-like value appearing in JWT payloads and HTTP response bodies. -/
inductive JVal where
  | str (s : String)
  | int (n : Int)
deriving DecidableEq, Repr

/-- A Python dict with string keys, modelled as an insertion-ordered
association list (Python 3.7+ dicts preserve insertion order). -/
abbrev PyDict := List (String × JVal)

/-- Python dict assignment `d[k] = v`: replace the value at the first
occurrence of `k` keeping its position, else append `(k, v)`. -/
def dictSet : PyDict → String → JVal → PyDict
  | [], k, v => [(k, v)]
  | (k', v') :: rest, k, v =>
      if k' = k then (k, v) :: rest else (k', v') :: dictSet rest k v

/-- Python dict lookup `d[k]` (first occurrence wins; a real dict has no
duplicate keys). -/
def dictGet : PyDict → String → Option JVal
  | [], _ => none
  | (k', v') :: rest, k => if k' = k then some v' else dictGet rest k

/-- Reason tag of the spec's `InvalidTokenError` (spec section 4.2). -/
inductive TokenReason where
  | expired
  | badSignature
  | malformed
deriving DecidableEq, Repr

/-- Field tag of the spec's `DuplicateAccountError` (spec section 4.3). -/
inductive AccountField where
  | username
  | email
deriving DecidableEq, Repr

/-- The exceptions the embedded code can raise, plus two constructors
modelled from the spec.

Code-raised kinds:
  * `userNotFound`  — `UserNotFoundException` (user_exceptions.py line 5),
    carries the attempted username;
  * `attributeError` — CPython `AttributeError` on access to an attribute
    the class does not declare;
  * `valueError` — CPython `ValueError`; raised by `JWTHandler.decode`
    (security.py line 37) wrapping any JWT library failure;
  * `integrityError` — the database driver's unique-constraint violation
    (sqlalchemy `IntegrityError`), carrying the violated constraint name.

Spec-modelled kinds, defined nowhere in the repository and never produced
by any code-derived definition below (user_exceptions.py declares only
`AuthorizationException` and `UserNotFoundException`):
  * `invalidTokenError` — the typed token failure of spec section 4.2;
  * `duplicateAccountError` — the typed duplicate failure of spec
    section 4.3. -/
inductive PyExc where
  | userNotFound (username : String)
  | attributeError (attr : String)
  | valueError (msg : String)
  | integrityError (constraint : String)
  | invalidTokenError (reason : TokenReason)
  | duplicateAccountError (field : AccountField)
deriving DecidableEq, Repr

/-- Whether an `Except` result is a success. -/
def exOk {α : Type} : Except PyExc α → Bool
  | .ok _ => true
  | .error _ => false

/- ----------------------------------------------------------------
PasswordManager (security.py lines 40-49).

bcrypt's `hashpw(pw, gensalt(rounds))` produces a modular-format string
embedding the cost, the salt and the digest; `checkpw(pw, stored)` re-runs
the key-derivation with the cost and salt embedded in `stored` and
compares the digests.  The key-derivation function itself is left as a
parameter `kdf` (its internals are irrelevant to every claim here: the
round-trip property holds for an arbitrary `kdf`).  The randomness of
`gensalt` is modelled by the explicit `salt` argument.
---------------------------------------------------------------- -/

/-- The parsed form of a bcrypt modular-format hash string
(`$2b$rounds$saltdigest`): cost parameter, salt, and digest. -/
structure BcryptHash where
  rounds : Nat
  salt : Nat
  digest : String
deriving DecidableEq, Repr

namespace PasswordManager

/-- `PasswordManager.hash_password` (security.py line 42): derive the
digest from the password with a fresh salt and embed rounds, salt and
digest in the output. -/
def hash_password (kdf : String → Nat → Nat → String) (rounds salt : Nat)
    (password : String) : BcryptHash :=
  ⟨rounds, salt, kdf password rounds salt⟩

/-- `PasswordManager.verify_password` (security.py line 47): re-derive the
digest from the candidate using the cost and salt embedded in the stored
hash, and compare. -/
def verify_password (kdf : String → Nat → Nat → String)
    (stored_password : BcryptHash) (provided_password : String) : Bool :=
  kdf provided_password stored_password.rounds stored_password.salt
    == stored_password.digest

end PasswordManager

/- ----------------------------------------------------------------
JWTHandler (security.py lines 9-37), over a shallow model of the PyJWT
library.  A compact token is either a well-formed triple
(header alg, payload, signature) or an arbitrary non-JWT string.  The
HMAC is modelled as the triple (key bytes, algorithm, payload): two
signatures agree exactly when key, algorithm and payload agree.
---------------------------------------------------------------- -/

/-- The signature segment of a token: an HMAC over the payload, modelled
as the signing inputs themselves. -/
structure JwtSig where
  key : String
  alg : String
  payload : PyDict
deriving DecidableEq, Repr

/-- The three segments of a well-formed compact JWT. -/
structure JwtTokenData where
  alg : String
  payload : PyDict
  sig : JwtSig
deriving DecidableEq, Repr

/-- A token string: either a well-formed JWT or unparseable garbage. -/
inductive JwtToken where
  | wellFormed (t : JwtTokenData)
  | malformedStr (s : String)
deriving DecidableEq, Repr

/-- Compute the signature segment (the model of HMAC signing). -/
def hmacSign (key alg : String) (payload : PyDict) : JwtSig :=
  ⟨key, alg, payload⟩

/-- The typed errors raised by the PyJWT library's `decode`. -/
inductive JwtLibError where
  | decodeError
  | invalidSignature
  | expiredSignature
  | invalidAlgorithm
deriving DecidableEq, Repr

/-- The message text each PyJWT exception carries. -/
def JwtLibError.message : JwtLibError → String
  | .decodeError => "Not enough segments"
  | .invalidSignature => "Signature verification failed"
  | .expiredSignature => "Signature has expired"
  | .invalidAlgorithm => "The specified alg value is not allowed"

/-- PyJWT `jwt.encode(payload, key, algorithm)`: serialize the payload
and sign it. -/
def jwtLibEncode (payload : PyDict) (key alg : String) : JwtToken :=
  .wellFormed ⟨alg, payload, hmacSign key alg payload⟩

/-- PyJWT `jwt.decode(token, key, algorithms)`: parse, check the header
algorithm against the allow-list, verify the signature, then (only if
an `exp` claim is present) reject tokens whose expiry is not in the
future (`exp <= now` is expired, leeway 0).  Signature verification
happens before expiry validation, as in the library. -/
def jwtLibDecode (tok : JwtToken) (key : String) (algorithms : List String)
    (now : Int) : Except JwtLibError PyDict :=
  match tok with
  | .malformedStr _ => .error .decodeError
  | .wellFormed t =>
      if t.alg ∈ algorithms then
        if t.sig = hmacSign key t.alg t.payload then
          match dictGet t.payload "exp" with
          | some (.int e) => if e ≤ now then .error .expiredSignature else .ok t.payload
          | _ => .ok t.payload
        else .error .invalidSignature
      else .error .invalidAlgorithm

/-- `base64.b64decode` applied to the stored secret (security.py lines
23 and 33).  Both `encode` and `decode` apply it to the same stored
secret, so only the fact that it is a function of the stored secret
matters; it is modelled as the identity on the modelled key bytes. -/
def b64dec (s : String) : String := s

/-- `JWTHandler.__init__` state (security.py lines 10-12). -/
structure JWTHandler where
  secret_key : String
  algorithm : String
deriving DecidableEq, Repr

/-- `JWTHandler.encode` (security.py lines 14-26): extend the payload
with `exp = now + JWT_EXPIRE_MINUTES` and `iat = now` (dict-literal
update order: data first, then `exp`, then `iat`; timestamps as epoch
seconds), then sign.  `expireMinutes` models the `JWT_EXPIRE_MINUTES`
setting; `now` models the wall clock at the call. -/
def JWTHandler.encode (h : JWTHandler) (data : PyDict)
    (expireMinutes now : Int) : JwtToken :=
  let payload :=
    dictSet (dictSet data "exp" (.int (now + expireMinutes * 60))) "iat" (.int now)
  jwtLibEncode payload (b64dec h.secret_key) h.algorithm

/-- `JWTHandler.decode` (security.py lines 28-37): call the library
decode and wrap ANY failure into an untyped
`ValueError("Failed to decode JWT: ...")`. -/
def JWTHandler.decode (h : JWTHandler) (tok : JwtToken) (now : Int) :
    Except PyExc PyDict :=
  match jwtLibDecode tok (b64dec h.secret_key) [h.algorithm] now with
  | .ok p => .ok p
  | .error e => .error (.valueError ("Failed to decode JWT: " ++ e.message))

/-- A decode result is either a success or the untyped `ValueError`
wrapper; no other error kind escapes `JWTHandler.decode`. -/
def untypedValueErrorOnly : Except PyExc PyDict → Bool
  | .ok _ => true
  | .error (.valueError _) => true
  | .error _ => false

/-- Modelled from the spec (section 4.2): the call failed with the typed
`InvalidTokenError{reason}` the spec requires.  No definition derived
from the code produces `PyExc.invalidTokenError`. -/
def failsWithTypedReason : Except PyExc PyDict → Bool
  | .error (.invalidTokenError _) => true
  | _ => false

/- ----------------------------------------------------------------
Data model: the `users` table row (orm.py lines 8-17) and the request
schemas (requests.py).
---------------------------------------------------------------- -/

/-- One row of the `users` table: `id` (autoincrement primary key),
`username` (unique), `email` (unique), `password_hash`. -/
structure User where
  id : Int
  username : String
  email : String
  password_hash : String
deriving DecidableEq, Repr

/-- The visible (committed) content of the `users` table, in insertion
order. -/
abbrev Store := List User

/-- Column names usable in `filter_by` criteria. -/
inductive UserField where
  | username
  | email
  | password_hash
deriving DecidableEq, Repr

/-- Read a string-valued column of a row. -/
def User.fieldGet (u : User) : UserField → String
  | .username => u.username
  | .email => u.email
  | .password_hash => u.password_hash

/-- CPython attribute access on a `User` row: succeeds exactly on the
four declared columns, raises `AttributeError` otherwise (in particular
`user.password` raises — the column is `password_hash`). -/
def User.getAttr (u : User) : String → Except PyExc JVal
  | "id" => .ok (.int u.id)
  | "username" => .ok (.str u.username)
  | "email" => .ok (.str u.email)
  | "password_hash" => .ok (.str u.password_hash)
  | a => .error (.attributeError a)

/-- `LoginRequest` (requests.py lines 4-6): fields `username` and
`hashed_password`. -/
structure LoginRequest where
  username : String
  hashed_password : String
deriving DecidableEq, Repr

/-- Attribute access on a `LoginRequest`: the declared pydantic fields
are `username` and `hashed_password`; anything else (in particular
`password`) raises `AttributeError`. -/
def LoginRequest.getAttr (l : LoginRequest) : String → Except PyExc JVal
  | "username" => .ok (.str l.username)
  | "hashed_password" => .ok (.str l.hashed_password)
  | a => .error (.attributeError a)

/-- `RegisterRequest` (requests.py lines 8-11): fields `username`,
`email` and `password_hash`. -/
structure RegisterRequest where
  username : String
  email : String
  password_hash : String
deriving DecidableEq, Repr

/-- Attribute access on a `RegisterRequest`: the declared pydantic
fields are `username`, `email` and `password_hash`; anything else (in
particular `password`) raises `AttributeError`. -/
def RegisterRequest.getAttr (r : RegisterRequest) : String → Except PyExc JVal
  | "username" => .ok (.str r.username)
  | "email" => .ok (.str r.email)
  | "password_hash" => .ok (.str r.password_hash)
  | a => .error (.attributeError a)

/- ----------------------------------------------------------------
UserRepository (user_repository.py), over a model of the SQLAlchemy
async session: a committed table plus a pending (uncommitted) insert
buffer.  `commit` atomically flushes the pending rows unless a unique
constraint would be violated (the database reports the first violated
constraint by name) or an injected persistence fault fires; `rollback`
discards the pending buffer.
---------------------------------------------------------------- -/

/-- A SQLAlchemy session: committed store plus pending inserts. -/
structure Session where
  committed : Store
  pending : List User
deriving DecidableEq, Repr

/-- `session.add(user)`: buffer an insert. -/
def Session.add (sess : Session) (u : User) : Session :=
  ⟨sess.committed, sess.pending ++ [u]⟩

/-- First unique-constraint violation among the pending rows, checked
against the committed rows (and previously accepted pending rows).  The
`users` table declares `username` and `email` unique (orm.py lines
12-13); Postgres names the indexes `users_username_key` and
`users_email_key`, with the username index modelled as checked first. -/
def violationOf (committed : Store) : List User → Option String
  | [] => none
  | u :: rest =>
      if committed.any (fun v => v.username == u.username) then
        some "users_username_key"
      else if committed.any (fun v => v.email == u.email) then
        some "users_email_key"
      else violationOf (committed ++ [u]) rest

/-- `session.commit()`: an injected infrastructure fault, a unique
violation (`IntegrityError` naming the constraint), or an atomic flush
of the pending rows. -/
def Session.commit (sess : Session) (fault : Option PyExc) :
    Session × Except PyExc Unit :=
  match fault with
  | some e => (sess, .error e)
  | none =>
      match violationOf sess.committed sess.pending with
      | some c => (sess, .error (.integrityError c))
      | none => (⟨sess.committed ++ sess.pending, []⟩, .ok ())

/-- `session.rollback()`: discard the pending buffer; the committed
store is untouched. -/
def Session.rollback (sess : Session) : Session :=
  ⟨sess.committed, []⟩

namespace UserRepository

/-- `User(**dict(user_data))` plus the id the database assigns on
insert (observed through `session.refresh`): the request's `username`,
`email` and `password_hash` columns, with the next autoincrement id. -/
def newUser (sess : Session) (user_data : RegisterRequest) : User :=
  ⟨Int.ofNat (sess.committed.length + 1),
   user_data.username, user_data.email, user_data.password_hash⟩

/-- `UserRepository.create_user` (user_repository.py lines 12-25):
build the row, `add`, `commit`; on any exception, `rollback` and
re-raise the exception unchanged.  `fault` injects an arbitrary
persistence fault at commit. -/
def create_user (sess : Session) (user_data : RegisterRequest)
    (fault : Option PyExc) : Session × Except PyExc User :=
  match (sess.add (newUser sess user_data)).commit fault with
  | (sess2, .ok _) => (sess2, .ok (newUser sess user_data))
  | (sess2, .error e) => (sess2.rollback, .error e)

/-- `UserRepository.get_user` (user_repository.py lines 27-36):
`select(User).filter_by(**filter_criteria)` then `.scalars().first()` —
the first row satisfying every equality criterion, `None` if there is
none. -/
def get_user (s : Store) (filter_criteria : List (UserField × String)) :
    Option User :=
  s.find? (fun u => filter_criteria.all (fun c => u.fieldGet c.1 == c.2))

end UserRepository

/-- Modelled from the spec (section 4.3): the call failed with the typed
`DuplicateAccountError{field}` the spec requires.  No definition derived
from the code produces `PyExc.duplicateAccountError`
(user_exceptions.py declares no such class). -/
def isTypedDuplicate : Except PyExc User → Bool
  | .error (.duplicateAccountError _) => true
  | _ => false

/- ----------------------------------------------------------------
UserManagementService (user_service.py).
---------------------------------------------------------------- -/

namespace UserManagementService

/-- `register_user` (user_service.py lines 17-21).  Line 20 first
evaluates `user_data.password` on the right-hand side; `RegisterRequest`
declares `username`, `email`, `password_hash`, so the access raises
`AttributeError` and nothing is hashed or persisted.  The second arm is
dead code (it can never be reached because `getAttr "password"` always
fails): had the attribute existed, the hashed request would go to
`UserRepository.create_user`. -/
def register_user (sess : Session) (user_data : RegisterRequest) :
    Session × Except PyExc User :=
  match user_data.getAttr "password" with
  | .error e => (sess, .error e)
  | .ok _ => UserRepository.create_user sess user_data none

/-- `verify_user` (user_service.py lines 23-34): look up the row by
username; if none, raise `UserNotFoundException(username)`; otherwise
line 29 evaluates `user.password` (the `User` column is
`password_hash`) and then `login_data.password` (the `LoginRequest`
field is `hashed_password`), each of which raises `AttributeError`.
The innermost arm is dead code (both lookups fail by definition of the
`getAttr` functions); its value is never inspected. -/
def verify_user (jwt_handler : JWTHandler) (expireMinutes now : Int)
    (s : Store) (login_data : LoginRequest) : Except PyExc JwtToken :=
  match UserRepository.get_user s [(UserField.username, login_data.username)] with
  | none => .error (.userNotFound login_data.username)
  | some user =>
      match user.getAttr "password" with
      | .error e => .error e
      | .ok _ =>
          match login_data.getAttr "password" with
          | .error e => .error e
          | .ok _ => .error (.attributeError "password")

end UserManagementService

/- ----------------------------------------------------------------
user_router.py: the register endpoint.
---------------------------------------------------------------- -/

namespace UserRouter

/-- The response dict built at user_router.py line 40 on a successful
registration. -/
def registerResponse (user_data : RegisterRequest) (new_user : User) : PyDict :=
  [("message", .str "User registered successfully"),
   ("username", .str user_data.username),
   ("user_id", .int new_user.id)]

/-- The `/register` endpoint (user_router.py lines 30-40): run the
service and, on success, answer with `registerResponse`. -/
def register (sess : Session) (user_data : RegisterRequest) :
    Session × Except PyExc PyDict :=
  match UserManagementService.register_user sess user_data with
  | (sess2, .ok u) => (sess2, .ok (registerResponse user_data u))
  | (sess2, .error e) => (sess2, .error e)

end UserRouter

/-- A registered row used as a concrete input in several theorems. -/
def aliceRow : User :=
  ⟨1, "alice", "alice@x.com", "bcrypt-hash-1"⟩

/-- A concrete `JWTHandler` used in several theorems. -/
def hdl : JWTHandler :=
  ⟨"k1", "HS256"⟩

/- ----------------------------------------------------------------
Helper lemmas.
---------------------------------------------------------------- -/

theorem getAttr_password_user (u : User) :
    u.getAttr "password" = .error (.attributeError "password") := rfl

theorem getAttr_password_login (l : LoginRequest) :
    l.getAttr "password" = .error (.attributeError "password") := rfl

theorem getAttr_password_register (r : RegisterRequest) :
    r.getAttr "password" = .error (.attributeError "password") := rfl

theorem dictSet_append (d : PyDict) (k : String) (v : JVal)
    (h : k ∉ d.map Prod.fst) : dictSet d k v = d ++ [(k, v)] := by
  induction d with
  | nil => rfl
  | cons kv rest ih =>
      obtain ⟨k', v'⟩ := kv
      simp only [List.map_cons, List.mem_cons] at h
      push_neg at h
      obtain ⟨h1, h2⟩ := h
      simp [dictSet, Ne.symm h1, ih h2]

theorem dictGet_append (d rest : PyDict) (k : String)
    (h : k ∉ d.map Prod.fst) : dictGet (d ++ rest) k = dictGet rest k := by
  induction d with
  | nil => rfl
  | cons kv tail ih =>
      obtain ⟨k', v'⟩ := kv
      simp only [List.map_cons, List.mem_cons] at h
      push_neg at h
      obtain ⟨h1, h2⟩ := h
      simp [dictGet, Ne.symm h1, ih h2]

theorem filter_strip_timestamps (d : PyDict) (e i : JVal)
    (hexp : "exp" ∉ d.map Prod.fst) (hiat : "iat" ∉ d.map Prod.fst) :
    (d ++ [("exp", e), ("iat", i)]).filter
      (fun kv => kv.1 != "exp" && kv.1 != "iat") = d := by
  induction d with
  | nil => rfl
  | cons kv rest ih =>
      obtain ⟨k', v'⟩ := kv
      simp only [List.map_cons, List.mem_cons] at hexp hiat
      push_neg at hexp hiat
      obtain ⟨he1, he2⟩ := hexp
      obtain ⟨hi1, hi2⟩ := hiat
      have hb : (k' != "exp" && k' != "iat") = true := by
        simp only [Bool.and_eq_true, bne_iff_ne]
        exact ⟨Ne.symm he1, Ne.symm hi1⟩
      simp [List.filter, hb, ih he2 hi2]

theorem session_commit_error_eq (sess : Session) (fault : Option PyExc)
    (sess2 : Session) (e : PyExc)
    (h : sess.commit fault = (sess2, Except.error e)) : sess2 = sess := by
  cases fault with
  | some e' =>
      simp only [Session.commit, Prod.mk.injEq] at h
      exact h.1.symm
  | none =>
      cases hv : violationOf sess.committed sess.pending with
      | none => simp [Session.commit, hv] at h
      | some c =>
          simp only [Session.commit, hv, Prod.mk.injEq] at h
          exact h.1.symm

/- ----------------------------------------------------------------
The claims.
---------------------------------------------------------------- -/

/-- Claim C1: for every password `p` (and every salt the embedded
`gensalt` may draw, and any key-derivation function), verifying `p`
against `hash_password p` returns `true`; distinct salts may give
distinct encoded hashes, yet each verifies. -/
theorem hash_password_always_verifies
    (kdf : String → Nat → Nat → String) (rounds salt : Nat) (p : String) :
    PasswordManager.verify_password kdf
      (PasswordManager.hash_password kdf rounds salt p) p = true := by
  simp [PasswordManager.verify_password, PasswordManager.hash_password]

/-- Claim C2: the two login failure modes are NOT the same error kind.
An unknown username raises `UserNotFoundException` with the attempted
username, but an existing username with a non-verifying password raises
`AttributeError` (line 29 reads `user.password` while the column is
`password_hash`), so the code diverges from the claim: with `alice`
registered, logging in as `bob` gives `userNotFound "bob"` while logging
in as `alice` with a wrong password gives `attributeError "password"`. -/
theorem verify_user_failure_modes_distinguishable :
    UserManagementService.verify_user hdl 60 0 [aliceRow] ⟨"bob", "pw"⟩
      = Except.error (PyExc.userNotFound "bob") ∧
    UserManagementService.verify_user hdl 60 0 [aliceRow] ⟨"alice", "wrong-pw"⟩
      = Except.error (PyExc.attributeError "password") :=
  ⟨rfl, rfl⟩

/-- Claim C3: registration never hashes nor persists anything — for
every session and every request, `register_user` raises
`AttributeError("password")` (line 20 reads `user_data.password`, but
`RegisterRequest` declares `password_hash`) and leaves the session
unchanged, so no Credential-Codec hash is ever handed to the store. -/
theorem register_user_attribute_error (sess : Session) (r : RegisterRequest) :
    UserManagementService.register_user sess r
      = (sess, Except.error (PyExc.attributeError "password")) := rfl

/-- Claim C4, counterexample: with `alice` stored, inserting a second
`alice` (different email) fails with the driver `IntegrityError` naming
the `users_username_key` constraint, not with a typed
`DuplicateAccountError{field: username}`; the duplicate-email insert
likewise does not produce a typed `DuplicateAccountError{field: email}`. -/
theorem create_user_duplicate_untyped_cex :
    (UserRepository.create_user ⟨[aliceRow], []⟩ ⟨"alice", "other@x.com", "h2"⟩ none).2
      = Except.error (PyExc.integrityError "users_username_key") ∧
    isTypedDuplicate
      (UserRepository.create_user ⟨[aliceRow], []⟩ ⟨"alice", "other@x.com", "h2"⟩ none).2
      = false ∧
    exOk (UserRepository.create_user ⟨[aliceRow], []⟩ ⟨"bob", "alice@x.com", "h3"⟩ none).2
      = false ∧
    isTypedDuplicate
      (UserRepository.create_user ⟨[aliceRow], []⟩ ⟨"bob", "alice@x.com", "h3"⟩ none).2
      = false :=
  ⟨rfl, rfl, rfl, rfl⟩

/-- Claim C4, amended: a second `create_user` with an already-stored
username (different email) fails and leaves the committed store
unchanged, as does one with an already-stored email (fresh username);
the failure is the re-raised driver `IntegrityError` naming the violated
unique constraint (`users_username_key` resp. `users_email_key`), not a
typed `DuplicateAccountError` — no such exception class exists in the
code. -/
theorem create_user_duplicate_integrity (sess : Session)
    (r1 r2 : RegisterRequest)
    (hp : sess.pending = [])
    (h1 : sess.committed.any (fun v => v.username == r1.username) = true)
    (h2u : sess.committed.any (fun v => v.username == r2.username) = false)
    (h2e : sess.committed.any (fun v => v.email == r2.email) = true) :
    UserRepository.create_user sess r1 none
      = (⟨sess.committed, []⟩, Except.error (PyExc.integrityError "users_username_key")) ∧
    UserRepository.create_user sess r2 none
      = (⟨sess.committed, []⟩, Except.error (PyExc.integrityError "users_email_key")) := by
  constructor
  · simp [UserRepository.create_user, UserRepository.newUser, Session.add,
      Session.commit, Session.rollback, violationOf, hp, h1]
  · simp [UserRepository.create_user, UserRepository.newUser, Session.add,
      Session.commit, Session.rollback, violationOf, hp, h2u, h2e]

theorem create_user_duplicate_integrity_witness :
    UserRepository.create_user ⟨[aliceRow], []⟩ ⟨"alice", "other@x.com", "h2"⟩ none
      = (⟨[aliceRow], []⟩, Except.error (PyExc.integrityError "users_username_key")) ∧
    UserRepository.create_user ⟨[aliceRow], []⟩ ⟨"bob", "alice@x.com", "h3"⟩ none
      = (⟨[aliceRow], []⟩, Except.error (PyExc.integrityError "users_email_key")) :=
  create_user_duplicate_integrity ⟨[aliceRow], []⟩
    ⟨"alice", "other@x.com", "h2"⟩ ⟨"bob", "alice@x.com", "h3"⟩
    rfl (by decide) (by decide) (by decide)

/-- Claim C5, counterexample: an expired token makes
`JWTHandler.decode` fail, but not with a typed
`InvalidTokenError{reason}` — the failure is an untyped `ValueError`
(the `except Exception` at security.py lines 36-37 wraps every library
failure). -/
theorem decode_expired_untyped_cex :
    exOk (JWTHandler.decode hdl (JWTHandler.encode hdl [] 0 0) 5) = false ∧
    failsWithTypedReason (JWTHandler.decode hdl (JWTHandler.encode hdl [] 0 0) 5)
      = false :=
  ⟨rfl, rfl⟩

/-- Claim C5, amended: every decode failure — expired token, wrong
signing key, malformed token string — surfaces as the single untyped
`ValueError("Failed to decode JWT: ...")` whose free-text message embeds
the library message; no typed reason tag is available to branch on. -/
theorem decode_failures_are_untyped :
    (∀ (h : JWTHandler) (tok : JwtToken) (now : Int),
        untypedValueErrorOnly (JWTHandler.decode h tok now) = true) ∧
    JWTHandler.decode hdl (JWTHandler.encode hdl [] 0 0) 5
      = Except.error (PyExc.valueError "Failed to decode JWT: Signature has expired") ∧
    JWTHandler.decode ⟨"k2", "HS256"⟩ (JWTHandler.encode hdl [] 0 0) 0
      = Except.error (PyExc.valueError "Failed to decode JWT: Signature verification failed") ∧
    JWTHandler.decode hdl (JwtToken.malformedStr "not-a-jwt") 0
      = Except.error (PyExc.valueError "Failed to decode JWT: Not enough segments") := by
  refine ⟨?_, rfl, rfl, rfl⟩
  intro h tok now
  cases hres : jwtLibDecode tok (b64dec h.secret_key) [h.algorithm] now with
  | ok p => simp [JWTHandler.decode, hres, untypedValueErrorOnly]
  | error e => simp [JWTHandler.decode, hres, untypedValueErrorOnly]

/-- Claim C6: decoding a token just issued with a positive TTL, the same
key and the same algorithm, before expiry, succeeds and returns every
original claim unchanged — the decoded payload is exactly the original
claims followed by the codec-added `exp` and `iat` timestamps, and
stripping those two reserved keys gives back the original claims
verbatim. -/
theorem jwt_roundtrip_preserves_claims (h : JWTHandler) (data : PyDict)
    (m now now' : Int)
    (hm : 0 < m)
    (hexp : "exp" ∉ data.map Prod.fst) (hiat : "iat" ∉ data.map Prod.fst)
    (hbefore : now' < now + m * 60) :
    JWTHandler.decode h (JWTHandler.encode h data m now) now'
      = Except.ok (data ++ [("exp", JVal.int (now + m * 60)), ("iat", JVal.int now)]) ∧
    (data ++ [("exp", JVal.int (now + m * 60)), ("iat", JVal.int now)]).filter
      (fun kv => kv.1 != "exp" && kv.1 != "iat") = data := by
  have h2 : "iat" ∉ (data ++ [("exp", JVal.int (now + m * 60))]).map Prod.fst := by
    simp only [List.map_append, List.mem_append, List.map_cons, List.map_nil,
      List.mem_cons, List.not_mem_nil]
    rintro (hmem | hone)
    · exact hiat hmem
    · rcases hone with hone | hfalse
      · exact absurd hone (by decide)
      · exact hfalse
  have hpayload :
      dictSet (dictSet data "exp" (JVal.int (now + m * 60))) "iat" (JVal.int now)
        = data ++ [("exp", JVal.int (now + m * 60)), ("iat", JVal.int now)] := by
    rw [dictSet_append data _ _ hexp, dictSet_append _ _ _ h2, List.append_assoc]
    rfl
  have hnotle : ¬ (now + m * 60 ≤ now') := by omega
  refine ⟨?_, filter_strip_timestamps data _ _ hexp hiat⟩
  simp [JWTHandler.encode, jwtLibEncode, hpayload, JWTHandler.decode,
    jwtLibDecode, hmacSign, dictGet_append data _ "exp" hexp, dictGet, hnotle]

theorem jwt_roundtrip_preserves_claims_witness :
    JWTHandler.decode hdl
        (JWTHandler.encode hdl [("username", JVal.str "alice")] 60 0) 1
      = Except.ok ([("username", JVal.str "alice")]
          ++ [("exp", JVal.int (0 + 60 * 60)), ("iat", JVal.int 0)]) ∧
    ([("username", JVal.str "alice")]
        ++ [("exp", JVal.int (0 + 60 * 60)), ("iat", JVal.int 0)]).filter
      (fun kv => kv.1 != "exp" && kv.1 != "iat") = [("username", JVal.str "alice")] :=
  jwt_roundtrip_preserves_claims hdl [("username", JVal.str "alice")] 60 0 1
    (by decide) (by decide) (by decide) (by decide)

/-- Claim C7: whenever `create_user` surfaces an error — an injected
persistence fault or a uniqueness violation — the transaction has been
rolled back in full: the committed store is exactly what it was before
the call and no pending (partial) row remains in the session. -/
theorem create_user_error_rolls_back (sess : Session) (r : RegisterRequest)
    (fault : Option PyExc) (e : PyExc)
    (herr : (UserRepository.create_user sess r fault).2 = Except.error e) :
    (UserRepository.create_user sess r fault).1.committed = sess.committed ∧
    (UserRepository.create_user sess r fault).1.pending = [] := by
  cases fault with
  | some e' => exact ⟨rfl, rfl⟩
  | none =>
      cases hv : violationOf sess.committed
          (sess.pending ++ [UserRepository.newUser sess r]) with
      | some c =>
          simp [UserRepository.create_user, Session.add, Session.commit, hv,
            Session.rollback]
      | none =>
          simp [UserRepository.create_user, Session.add, Session.commit, hv] at herr

theorem create_user_error_rolls_back_witness :
    (UserRepository.create_user ⟨[aliceRow], []⟩
        ⟨"alice", "other@x.com", "h2"⟩ none).1.committed = [aliceRow] ∧
    (UserRepository.create_user ⟨[aliceRow], []⟩
        ⟨"alice", "other@x.com", "h2"⟩ none).1.pending = [] :=
  create_user_error_rolls_back ⟨[aliceRow], []⟩ ⟨"alice", "other@x.com", "h2"⟩
    none (PyExc.integrityError "users_username_key") rfl

/-- Claim C8, counterexample: the response built for a successful
registration (user_router.py line 40) has no `email` entry, contrary to
the claimed `{id, username, email}` shape. -/
theorem register_response_missing_email_cex :
    "email" ∉ (UserRouter.registerResponse ⟨"alice", "alice@x.com", "ph1"⟩
        aliceRow).map Prod.fst := by
  decide

/-- Claim C8, amended: the registration response consists exactly of a
fixed message, the request's username and the created row's id (as
`user_id`); it does not contain the email, and the stored password hash
appears in no field of the response. -/
theorem register_response_shape (r : RegisterRequest) (u : User)
    (h1 : u.password_hash ≠ "User registered successfully")
    (h2 : u.password_hash ≠ r.username) :
    (UserRouter.registerResponse r u).map Prod.fst
      = ["message", "username", "user_id"] ∧
    dictGet (UserRouter.registerResponse r u) "username"
      = some (JVal.str r.username) ∧
    dictGet (UserRouter.registerResponse r u) "user_id"
      = some (JVal.int u.id) ∧
    JVal.str u.password_hash ∉ (UserRouter.registerResponse r u).map Prod.snd := by
  refine ⟨rfl, rfl, rfl, ?_⟩
  simp [UserRouter.registerResponse, h1, h2]

theorem register_response_shape_witness :
    (UserRouter.registerResponse ⟨"alice", "alice@x.com", "ph-raw"⟩ aliceRow).map Prod.fst
      = ["message", "username", "user_id"] ∧
    dictGet (UserRouter.registerResponse ⟨"alice", "alice@x.com", "ph-raw"⟩ aliceRow)
        "username" = some (JVal.str "alice") ∧
    dictGet (UserRouter.registerResponse ⟨"alice", "alice@x.com", "ph-raw"⟩ aliceRow)
        "user_id" = some (JVal.int aliceRow.id) ∧
    JVal.str aliceRow.password_hash
      ∉ (UserRouter.registerResponse ⟨"alice", "alice@x.com", "ph-raw"⟩ aliceRow).map
          Prod.snd :=
  register_response_shape ⟨"alice", "alice@x.com", "ph-raw"⟩ aliceRow
    (by decide) (by decide)

/-- Claim C9: no login can ever succeed, so no token is ever minted —
for every handler, clock, store and request, `verify_user` fails (the
line-29 access to `user.password` raises before the `jwt_handler.encode`
call at lines 31-33 can run); in particular even the correct password
for a stored account yields `AttributeError("password")` instead of a
token embedding the username claim. -/
theorem verify_user_never_issues_token :
    (∀ (h : JWTHandler) (m now : Int) (s : Store) (l : LoginRequest),
        exOk (UserManagementService.verify_user h m now s l) = false) ∧
    UserManagementService.verify_user hdl 60 0 [aliceRow] ⟨"alice", "correct-pw"⟩
      = Except.error (PyExc.attributeError "password") := by
  refine ⟨?_, rfl⟩
  intro h m now s l
  rcases hg : UserRepository.get_user s [(UserField.username, l.username)] with _ | u <;>
    simp [UserManagementService.verify_user, hg, getAttr_password_user,
      getAttr_password_login, exOk]

/-- Claim C10: `get_user` with an empty criteria mapping returns the
first stored row (every row matches an empty set of equality filters),
and `none` exactly when the store is empty. -/
theorem get_user_empty_criteria_returns_head (s : Store) :
    UserRepository.get_user s [] = s.head? := by
  cases s with
  | nil => rfl
  | cons a l => rfl

end DocChat
